import Mathlib

/-!
Verification development for the todo-service client-side task state
synchronization engine.  The definitions below are a shallow embedding of
the state-manipulating code in `src/pages/Dashboard.tsx`, `src/pages/Archive.tsx`
and the older Dashboard variant (`src/unnamed/part_002`): the Entity Store is
the `todos` React state (a plain list), mutations and push-event handlers are
the pure list transformations passed to `setTodos`, and the derived views are
the `filteredTodos` / `activeTodos` / `completedTodos` computations.
-/

/-- Wall-clock timestamps as they matter to this code: a calendar-day index
plus hour / minute / second / millisecond components.  This models the moments
of a JS `Date` that the source inspects (`isSame(_, 'day')` compares the `day`
component, `getHours()` reads `hour`, `setHours(9,0,0,0)` writes the last four
components). -/
structure Timestamp where
  day : Nat
  hour : Nat
  minute : Nat
  second : Nat
  ms : Nat
deriving DecidableEq, Repr

/-- The `Todo` record interface of `Dashboard.tsx` (lines 8-18). -/
structure Todo where
  id : Nat
  task : String
  completed : Bool
  completed_at : Option Timestamp
  created_at : Timestamp
  priority : Bool
  deadline : Option Timestamp
  group_id : Nat
  archived : Bool
deriving DecidableEq, Repr

/-- Push-channel INSERT branch, `Dashboard.tsx` line 88 (identically
`part_002` line 58): `setTodos(prev => [payload.new as Todo, ...prev])` —
an unconditional prepend of the event's record. -/
def applyInsert (rec : Todo) (prev : List Todo) : List Todo :=
  rec :: prev

/-- Push-channel DELETE branch, `Dashboard.tsx` line 90:
`setTodos(prev => prev.filter(todo => todo.id !== payload.old.id))`. -/
def applyDelete (oldId : Nat) (prev : List Todo) : List Todo :=
  prev.filter (fun todo => todo.id != oldId)

/-- Push-channel UPDATE branch, `Dashboard.tsx` lines 92-94:
`setTodos(prev => prev.map(todo => todo.id === payload.new.id ? payload.new : todo))`. -/
def applyUpdate (rec : Todo) (prev : List Todo) : List Todo :=
  prev.map (fun todo => if todo.id = rec.id then rec else todo)

/-- `addTodo` success handler, `Dashboard.tsx` line 162 (identically
`part_002` line 105): `setTodos(prev => [data as Todo, ...prev])` — the
server-returned record is prepended. -/
def addTodoApply (data : Todo) (prev : List Todo) : List Todo :=
  data :: prev

/-- The `setTodos` transformation of `toggleTodo`, `Dashboard.tsx` lines
187-191 and `part_002` lines 115-119: the record with the clicked id gets
`completed := !completed` and `completed_at := !completed ? now : null`,
where `completed` is the value read from the record at click time. -/
def toggleTodoApply (tid : Nat) (completed : Bool) (now : Timestamp)
    (prev : List Todo) : List Todo :=
  prev.map (fun todo =>
    if todo.id = tid then
      { todo with completed := !completed,
                  completed_at := if !completed then some now else none }
    else todo)

/-- The error-branch `setTodos` of `toggleTodo` in `part_002` lines 131-135:
`completed: completed, completed_at: completed ? now : null` — note that it
writes the toggle-time `now`, not the record's pre-mutation `completed_at`. -/
def toggleTodoRollback (tid : Nat) (completed : Bool) (now : Timestamp)
    (prev : List Todo) : List Todo :=
  prev.map (fun todo =>
    if todo.id = tid then
      { todo with completed := completed,
                  completed_at := if completed then some now else none }
    else todo)

/-- The `setTodos` transformation of `togglePriority`, `Dashboard.tsx` lines
229-233 and `part_002` lines 140-144. -/
def togglePriorityApply (tid : Nat) (priority : Bool) (prev : List Todo) : List Todo :=
  prev.map (fun todo =>
    if todo.id = tid then { todo with priority := !priority } else todo)

/-- The error-branch `setTodos` of `togglePriority` in `part_002` lines
153-157: the priority flag is put back to its captured pre-toggle value. -/
def togglePriorityRollback (tid : Nat) (priority : Bool) (prev : List Todo) : List Todo :=
  prev.map (fun todo =>
    if todo.id = tid then { todo with priority := priority } else todo)

/-- The `setTodos` transformation of `toggleArchive`, `Dashboard.tsx` lines
208-212. -/
def toggleArchiveApply (tid : Nat) (archived : Bool) (prev : List Todo) : List Todo :=
  prev.map (fun todo =>
    if todo.id = tid then { todo with archived := !archived } else todo)

/-- The `setTodos` transformation of `deleteTodo`, `Dashboard.tsx` line 250,
`Archive.tsx` line 98 and `part_002` line 163:
`prev.filter(todo => todo.id !== id)`. -/
def deleteTodoApply (tid : Nat) (prev : List Todo) : List Todo :=
  prev.filter (fun todo => todo.id != tid)

/-- A mutation handler viewed as the four store states it can exhibit: the
state before the handler starts, the state visible while the remote call is
awaited, and the states after the success / failure continuations run. -/
structure MutationRun where
  pre : List Todo
  inFlight : List Todo
  onSuccess : List Todo
  onFailure : List Todo

/-- `toggleTodo` of `Dashboard.tsx` lines 173-197: the remote `update` is
awaited first and `setTodos` runs only in the success branch; the `catch`
branch only logs, so the store is untouched while the call is in flight and
after a failure. -/
def toggleTodoRunDash (tid : Nat) (completed : Bool) (now : Timestamp)
    (pre : List Todo) : MutationRun :=
  { pre := pre
    inFlight := pre
    onSuccess := toggleTodoApply tid completed now pre
    onFailure := pre }

/-- `togglePriority` of `Dashboard.tsx` lines 220-239: remote call first,
local map only on success. -/
def togglePriorityRunDash (tid : Nat) (priority : Bool) (pre : List Todo) : MutationRun :=
  { pre := pre
    inFlight := pre
    onSuccess := togglePriorityApply tid priority pre
    onFailure := pre }

/-- `toggleArchive` of `Dashboard.tsx` lines 199-218: remote call first,
local map only on success. -/
def toggleArchiveRunDash (tid : Nat) (archived : Bool) (pre : List Todo) : MutationRun :=
  { pre := pre
    inFlight := pre
    onSuccess := toggleArchiveApply tid archived pre
    onFailure := pre }

/-- `deleteTodo` of `Dashboard.tsx` lines 241-256: remote delete first, local
filter only on success. -/
def deleteTodoRunDash (tid : Nat) (pre : List Todo) : MutationRun :=
  { pre := pre
    inFlight := pre
    onSuccess := deleteTodoApply tid pre
    onFailure := pre }

/-- `toggleTodo` of `part_002` lines 112-137: the map is applied before the
remote `update` is issued (optimistic); on error the rollback map runs over
the optimistic state. -/
def toggleTodoRunLegacy (tid : Nat) (completed : Bool) (now : Timestamp)
    (pre : List Todo) : MutationRun :=
  { pre := pre
    inFlight := toggleTodoApply tid completed now pre
    onSuccess := toggleTodoApply tid completed now pre
    onFailure := toggleTodoRollback tid completed now (toggleTodoApply tid completed now pre) }

/-- `togglePriority` of `part_002` lines 139-159: optimistic map, rollback
map on error. -/
def togglePriorityRunLegacy (tid : Nat) (priority : Bool) (pre : List Todo) : MutationRun :=
  { pre := pre
    inFlight := togglePriorityApply tid priority pre
    onSuccess := togglePriorityApply tid priority pre
    onFailure := togglePriorityRollback tid priority (togglePriorityApply tid priority pre) }

/-- `deleteTodo` of `part_002` lines 161-174: the whole list is snapshotted
(`previousTodos = [...todos]`), the record is filtered out optimistically, and
on error the snapshot is restored wholesale. -/
def deleteTodoRunLegacy (tid : Nat) (pre : List Todo) : MutationRun :=
  { pre := pre
    inFlight := deleteTodoApply tid pre
    onSuccess := deleteTodoApply tid pre
    onFailure := pre }

/-- `isCompletedToday` of `Dashboard.tsx` line 287:
`todo.completed && moment(todo.completed_at).isSame(moment(), 'day')`
(`moment(null)` is invalid and `isSame` on it is false). -/
def isCompletedToday (today : Nat) (todo : Todo) : Bool :=
  todo.completed &&
    (match todo.completed_at with
     | some c => c.day == today
     | none => false)

/-- `isInSelectedGroup` of `Dashboard.tsx` line 285:
`!selectedGroup || todo.group_id === selectedGroup`. -/
def isInSelectedGroup (selectedGroup : Option Nat) (todo : Todo) : Bool :=
  match selectedGroup with
  | none => true
  | some g => todo.group_id == g

/-- `filteredTodos` of `Dashboard.tsx` lines 280-290: when `showArchived` is
set only `todo.archived` is tested; otherwise group membership, non-archived
status and the completed-today allowance are required. -/
def filteredTodos (showArchived : Bool) (selectedGroup : Option Nat)
    (today : Nat) (todos : List Todo) : List Todo :=
  todos.filter (fun todo =>
    if showArchived then todo.archived
    else
      isInSelectedGroup selectedGroup todo && !todo.archived &&
        (!todo.completed || isCompletedToday today todo))

/-- `activeTodos` of `Dashboard.tsx` line 292 (in the non-archived mode):
`filteredTodos.filter(todo => !todo.completed)`. -/
def activeTodos (selectedGroup : Option Nat) (today : Nat)
    (todos : List Todo) : List Todo :=
  (filteredTodos false selectedGroup today todos).filter (fun todo => !todo.completed)

/-- `completedTodos` of `Dashboard.tsx` line 293 (in the non-archived mode):
`filteredTodos.filter(todo => todo.completed)`. -/
def completedTodos (selectedGroup : Option Nat) (today : Nat)
    (todos : List Todo) : List Todo :=
  (filteredTodos false selectedGroup today todos).filter (fun todo => todo.completed)

/-- The archived view of `Dashboard.tsx`: `filteredTodos` with
`showArchived = true` (lines 281-283). -/
def archivedViewTodos (selectedGroup : Option Nat) (today : Nat)
    (todos : List Todo) : List Todo :=
  filteredTodos true selectedGroup today todos

/-- `filteredTodos` of `Archive.tsx` lines 111-113:
`selectedGroup ? todos.filter(todo => todo.group_id === selectedGroup) : todos`. -/
def archiveFilteredTodos (selectedGroup : Option Nat) (todos : List Todo) : List Todo :=
  match selectedGroup with
  | some g => todos.filter (fun todo => todo.group_id == g)
  | none => todos

/-- The deadline adjustment in `addTodo`, `Dashboard.tsx` lines 139-141 and
`part_002` lines 83-85: if the deadline falls on the calendar day after `now`
(`isTomorrow` / `isSame(moment().add(1,'day'), 'day')`) and `getHours()` is 0,
then `setHours(9, 0, 0, 0)` is applied. -/
def normalizeDeadline (now deadline : Timestamp) : Timestamp :=
  if deadline.day = now.day + 1 ∧ deadline.hour = 0 then
    { deadline with hour := 9, minute := 0, second := 0, ms := 0 }
  else deadline

/-- The stored `deadline` field built by `addTodo` (`Dashboard.tsx` lines
137-148): null input stays null, a present deadline goes through the
adjustment above. -/
def addTodoDeadline (now : Timestamp) (newTaskDeadline : Option Timestamp) :
    Option Timestamp :=
  match newTaskDeadline with
  | some deadline => some (normalizeDeadline now deadline)
  | none => none

/-- Lexicographic order on timestamps (earlier-or-equal), the order a JS
`Date` comparison induces on our timestamp model. -/
def tsLe (a b : Timestamp) : Prop :=
  a.day < b.day ∨ (a.day = b.day ∧
    (a.hour < b.hour ∨ (a.hour = b.hour ∧
      (a.minute < b.minute ∨ (a.minute = b.minute ∧
        (a.second < b.second ∨ (a.second = b.second ∧ a.ms ≤ b.ms)))))))

instance (a b : Timestamp) : Decidable (tsLe a b) := by
  unfold tsLe; infer_instance

/-- The display order the todos query requests from the remote store
(`Dashboard.tsx` lines 67-68): `priority` descending, then `created_at`
descending — `a` may precede `b` iff `a` has priority and `b` does not, or
both priorities are equal and `b` was created no later than `a`. -/
def todoOrder (a b : Todo) : Prop :=
  (a.priority = true ∧ b.priority = false) ∨
    (a.priority = b.priority ∧ tsLe b.created_at a.created_at)

instance (a b : Todo) : Decidable (todoOrder a b) := by
  unfold todoOrder; infer_instance

/-- A list of todos is sorted for display when every element may precede all
later ones under `todoOrder`. -/
def sortedView (l : List Todo) : Prop :=
  l.Pairwise todoOrder

instance (l : List Todo) : Decidable (sortedView l) := by
  unfold sortedView; infer_instance

/-- The at-most-one-record-per-id store invariant: the ids of the store list
are pairwise distinct. -/
def idsNodup (s : List Todo) : Prop :=
  (s.map Todo.id).Nodup

instance (s : List Todo) : Decidable (idsNodup s) := by
  unfold idsNodup; infer_instance

/-- A sample timestamp (day 0). -/
def ts0 : Timestamp := ⟨0, 10, 0, 0, 0⟩

/-- A sample timestamp (day 1), distinct from `ts0`. -/
def ts1 : Timestamp := ⟨1, 11, 0, 0, 0⟩

/-- A sample timestamp (day 2), distinct from `ts0` and `ts1`. -/
def ts2 : Timestamp := ⟨2, 12, 0, 0, 0⟩

/-- A sample priority task in group 1, not completed, not archived. -/
def pTodo : Todo :=
  { id := 1, task := "p", completed := false, completed_at := none,
    created_at := ts0, priority := true, deadline := none,
    group_id := 1, archived := false }

/-- A sample non-priority task in group 1, not completed, not archived,
created later than `pTodo`. -/
def qTodo : Todo :=
  { id := 2, task := "q", completed := false, completed_at := none,
    created_at := ts1, priority := false, deadline := none,
    group_id := 1, archived := false }

/-- A sample completed task: completed at `ts0`. -/
def doneTodo : Todo :=
  { id := 1, task := "d", completed := true, completed_at := some ts0,
    created_at := ts0, priority := false, deadline := none,
    group_id := 1, archived := false }

/-- A sample archived task in group 2. -/
def archivedOtherGroupTodo : Todo :=
  { id := 3, task := "a", completed := false, completed_at := none,
    created_at := ts0, priority := false, deadline := none,
    group_id := 2, archived := true }

/-! ## Helper lemmas -/

/-- The ids of the store are unchanged by the UPDATE push branch: the
replacement record carries the id it is matched on. -/
theorem applyUpdate_map_id (rec : Todo) (s : List Todo) :
    (applyUpdate rec s).map Todo.id = s.map Todo.id := by
  unfold applyUpdate
  rw [List.map_map]
  refine List.map_congr_left ?_
  intro a _
  by_cases hc : a.id = rec.id
  · simp [Function.comp, hc]
  · simp [Function.comp, hc]

/-- With the archive toggle off, `filteredTodos` reduces to the
group / non-archived / completed-today test. -/
theorem filteredTodos_false (selectedGroup : Option Nat) (today : Nat)
    (todos : List Todo) :
    filteredTodos false selectedGroup today todos =
      todos.filter (fun todo =>
        isInSelectedGroup selectedGroup todo && !todo.archived &&
          (!todo.completed || isCompletedToday today todo)) := rfl

/-- With the archive toggle on, `filteredTodos` reduces to the archived
test alone. -/
theorem filteredTodos_true (selectedGroup : Option Nat) (today : Nat)
    (todos : List Todo) :
    filteredTodos true selectedGroup today todos =
      todos.filter (fun todo => todo.archived) := rfl

/-- Membership characterization of the dashboard Active view. -/
theorem mem_activeTodos_iff {selectedGroup : Option Nat} {today : Nat}
    {todos : List Todo} {t : Todo} :
    t ∈ activeTodos selectedGroup today todos ↔
      t ∈ todos ∧ isInSelectedGroup selectedGroup t = true ∧
        t.archived = false ∧ t.completed = false := by
  rw [activeTodos, filteredTodos_false]
  simp only [List.mem_filter, Bool.and_eq_true, Bool.or_eq_true, Bool.not_eq_true']
  tauto

/-- Membership characterization of the dashboard Completed-today view. -/
theorem mem_completedTodos_iff {selectedGroup : Option Nat} {today : Nat}
    {todos : List Todo} {t : Todo} :
    t ∈ completedTodos selectedGroup today todos ↔
      t ∈ todos ∧ isInSelectedGroup selectedGroup t = true ∧
        t.archived = false ∧ t.completed = true ∧
        isCompletedToday today t = true := by
  rw [completedTodos, filteredTodos_false]
  simp only [List.mem_filter, Bool.and_eq_true, Bool.or_eq_true, Bool.not_eq_true']
  constructor
  · rintro ⟨⟨hm, ⟨hg, ha⟩, hd⟩, hc⟩
    rcases hd with hfalse | htoday
    · exact absurd hc (by simp [hfalse])
    · exact ⟨hm, hg, ha, hc, htoday⟩
  · rintro ⟨hm, hg, ha, hc, htoday⟩
    exact ⟨⟨hm, ⟨hg, ha⟩, Or.inr htoday⟩, hc⟩

/-- Membership characterization of the dashboard archived view. -/
theorem mem_archivedViewTodos_iff {selectedGroup : Option Nat} {today : Nat}
    {todos : List Todo} {t : Todo} :
    t ∈ archivedViewTodos selectedGroup today todos ↔
      t ∈ todos ∧ t.archived = true := by
  rw [archivedViewTodos, filteredTodos_true]
  simp [List.mem_filter]

/-! ## Claim theorems -/

/-- C10: for every store state and every id, applying the removal
transformation twice in a row (both the push-channel DELETE branch and the
local `deleteTodo` filter) yields the same store state as applying it once;
the operation is a total function, so the second application never raises an
error, including when the id was already absent before the first call. -/
theorem c10_remove_idempotent (tid : Nat) (s : List Todo) :
    applyDelete tid (applyDelete tid s) = applyDelete tid s ∧
    deleteTodoApply tid (deleteTodoApply tid s) = deleteTodoApply tid s := by
  constructor
  · unfold applyDelete
    rw [List.filter_filter]
    simp only [Bool.and_self]
  · unfold deleteTodoApply
    rw [List.filter_filter]
    simp only [Bool.and_self]

/-- C1 counterexample: delivering an insert push event whose record's id is
already present (a duplicate delivery, or the echo of the record this session
just created via `addTodo`) leaves the store with two Task records with the
same id, because the INSERT branch prepends unconditionally. -/
theorem c1_insert_duplicates_id :
    ¬ idsNodup (applyInsert pTodo [pTodo]) ∧ idsNodup [pTodo] := by decide

/-- C1 (amended): starting from a store with pairwise-distinct ids,
reconcile-update, reconcile-delete and local delete always preserve
id-uniqueness, while reconcile-insert and local create (both unconditional
prepends) preserve it only when the prepended record's id is not already
present. -/
theorem c1_id_uniqueness (s : List Todo) (rec : Todo) (tid : Nat)
    (h : idsNodup s) :
    (rec.id ∉ s.map Todo.id → idsNodup (applyInsert rec s)) ∧
    (rec.id ∉ s.map Todo.id → idsNodup (addTodoApply rec s)) ∧
    idsNodup (applyUpdate rec s) ∧
    idsNodup (applyDelete tid s) ∧
    idsNodup (deleteTodoApply tid s) := by
  refine ⟨?_, ?_, ?_, ?_, ?_⟩
  · intro hni
    unfold idsNodup applyInsert
    exact List.Nodup.cons hni h
  · intro hni
    unfold idsNodup addTodoApply
    exact List.Nodup.cons hni h
  · unfold idsNodup
    rw [applyUpdate_map_id]
    exact h
  · unfold idsNodup applyDelete
    exact List.Nodup.sublist ((List.filter_sublist s).map Todo.id) h
  · unfold idsNodup deleteTodoApply
    exact List.Nodup.sublist ((List.filter_sublist s).map Todo.id) h

/-- C1 witness: the amended uniqueness-preservation theorem applied to the
concrete store `[pTodo]` with a fresh record and an arbitrary deleted id. -/
theorem c1_id_uniqueness_witness :
    idsNodup (applyInsert qTodo [pTodo]) ∧ idsNodup (applyDelete 1 [pTodo]) := by
  have h := c1_id_uniqueness [pTodo] qTodo 1 (by decide)
  exact ⟨h.1 (by decide), h.2.2.2.1⟩

/-- C7 counterexample: an update push event whose record id is unseen is not
inserted — the UPDATE branch is a pure map, so on an empty store the event is
a no-op and the record never enters the store. -/
theorem c7_update_no_insert :
    applyUpdate pTodo [] = [] ∧ pTodo ∉ applyUpdate pTodo [] := by decide

/-- C7 (amended): an inbound update push event replaces the record with the
matching id wholesale when that id is present; when the id is unseen the
event is a no-op and the store is unchanged (no insert happens). -/
theorem c7_update_replace (rec : Todo) (s : List Todo) :
    ((∀ t ∈ s, t.id ≠ rec.id) → applyUpdate rec s = s) ∧
    (∀ t ∈ s, t.id = rec.id → rec ∈ applyUpdate rec s) := by
  constructor
  · intro h
    unfold applyUpdate
    have hcongr : ∀ a ∈ s, (if a.id = rec.id then rec else a) = a :=
      fun a ha => if_neg (h a ha)
    rw [List.map_congr_left hcongr]
    exact List.map_id s
  · intro t ht hid
    have hm := List.mem_map_of_mem
      (fun todo => if todo.id = rec.id then rec else todo) ht
    simpa [applyUpdate, hid] using hm

/-- C7 witness: the amended update-event theorem applied to the concrete
store `[pTodo]`, once with an unseen id (no-op) and once with the present
id (wholesale replacement present in the result). -/
theorem c7_update_replace_witness :
    applyUpdate qTodo [pTodo] = [pTodo] ∧ pTodo ∈ applyUpdate pTodo [pTodo] :=
  ⟨(c7_update_replace qTodo [pTodo]).1 (by decide),
   (c7_update_replace pTodo [pTodo]).2 pTodo (by simp) rfl⟩

/-- C5 counterexample: a deadline on tomorrow's date with time-of-day 00:30
is not stored unchanged — the code only tests `getHours() === 0`, so the
nonzero minutes still trigger the normalization and the stored deadline is
09:00:00.000 on that day. -/
theorem c5_tomorrow_half_past_midnight :
    addTodoDeadline ⟨0, 12, 0, 0, 0⟩ (some ⟨1, 0, 30, 0, 0⟩) = some ⟨1, 9, 0, 0, 0⟩ ∧
    addTodoDeadline ⟨0, 12, 0, 0, 0⟩ (some ⟨1, 0, 30, 0, 0⟩) ≠ some ⟨1, 0, 30, 0, 0⟩ := by
  decide

/-- C5 (amended): for a creation input with a non-null deadline, if the
deadline's date is tomorrow and its hour component is zero (regardless of
minutes, seconds and milliseconds), the stored deadline is 09:00:00.000 on
that next day; every other date/hour combination is stored unchanged. -/
theorem c5_deadline_rule (now d : Timestamp) :
    (d.day = now.day + 1 → d.hour = 0 →
      addTodoDeadline now (some d) =
        some { d with hour := 9, minute := 0, second := 0, ms := 0 }) ∧
    (¬(d.day = now.day + 1 ∧ d.hour = 0) →
      addTodoDeadline now (some d) = some d) := by
  constructor
  · intro h1 h2
    simp [addTodoDeadline, normalizeDeadline, h1, h2]
  · intro h
    simp [addTodoDeadline, normalizeDeadline, h]

/-- C5 witness: the amended deadline rule at concrete inputs — midnight
tomorrow is normalized to 09:00, and a midnight three days out is kept. -/
theorem c5_deadline_rule_witness :
    addTodoDeadline ⟨0, 12, 0, 0, 0⟩ (some ⟨1, 0, 0, 0, 0⟩) = some ⟨1, 9, 0, 0, 0⟩ ∧
    addTodoDeadline ⟨0, 12, 0, 0, 0⟩ (some ⟨3, 0, 0, 0, 0⟩) = some ⟨3, 0, 0, 0, 0⟩ :=
  ⟨(c5_deadline_rule ⟨0, 12, 0, 0, 0⟩ ⟨1, 0, 0, 0, 0⟩).1 rfl rfl,
   (c5_deadline_rule ⟨0, 12, 0, 0, 0⟩ ⟨3, 0, 0, 0, 0⟩).2 (by decide)⟩

/-- C2 counterexample: in `Dashboard.tsx` the toggle-completed mutation is
not optimistic — the store visible while the remote call is awaited equals
the pre-mutation store (the unchanged record still shows `completed = false`)
and differs from the state the mutation intends. -/
theorem c2_dashboard_not_optimistic :
    (toggleTodoRunDash 1 false ts1 [pTodo]).inFlight =
      (toggleTodoRunDash 1 false ts1 [pTodo]).pre ∧
    (toggleTodoRunDash 1 false ts1 [pTodo]).inFlight.all
      (fun todo => !todo.completed) = true ∧
    (toggleTodoRunDash 1 false ts1 [pTodo]).inFlight ≠
      toggleTodoApply 1 false ts1 [pTodo] := by decide

/-- C2 (amended): only the `part_002` Dashboard mutates optimistically — its
toggle-completed, toggle-priority and delete handlers apply the new record to
the store before the remote call is issued (the in-flight state already holds
the toggled record, respectively no longer holds the deleted id); in the
current `Dashboard.tsx` every mutation (toggle-completed, toggle-priority,
toggle-archived, delete) leaves the in-flight state equal to the pre-mutation
store and applies the change only after the remote response succeeds. -/
theorem c2_optimistic_phase (tid : Nat) (c p : Bool) (now : Timestamp)
    (pre : List Todo) (t : Todo) (ht : t ∈ pre) (hid : t.id = tid) :
    ({ t with completed := !c, completed_at := if !c then some now else none }
        ∈ (toggleTodoRunLegacy tid c now pre).inFlight) ∧
    ({ t with priority := !p } ∈ (togglePriorityRunLegacy tid p pre).inFlight) ∧
    (∀ u ∈ (deleteTodoRunLegacy tid pre).inFlight, u.id ≠ tid) ∧
    (toggleTodoRunDash tid c now pre).inFlight = pre ∧
    (togglePriorityRunDash tid p pre).inFlight = pre ∧
    (toggleArchiveRunDash tid c pre).inFlight = pre ∧
    (deleteTodoRunDash tid pre).inFlight = pre := by
  refine ⟨?_, ?_, ?_, rfl, rfl, rfl, rfl⟩
  · have hm := List.mem_map_of_mem
      (fun todo => if todo.id = tid then
        { todo with completed := !c,
                    completed_at := if !c then some now else none }
        else todo) ht
    simpa [toggleTodoRunLegacy, toggleTodoApply, hid] using hm
  · have hm := List.mem_map_of_mem
      (fun todo => if todo.id = tid then { todo with priority := !p } else todo) ht
    simpa [togglePriorityRunLegacy, togglePriorityApply, hid] using hm
  · intro u hu
    have hmem : u ∈ pre ∧ (u.id != tid) = true := by
      simpa [deleteTodoRunLegacy, deleteTodoApply, List.mem_filter] using hu
    simpa using hmem.2

/-- C2 witness: the amended optimistic/pessimistic split at the concrete
store `[pTodo]` — the legacy in-flight state holds the completed record while
the current Dashboard in-flight state is the untouched store. -/
theorem c2_optimistic_phase_witness :
    ({ pTodo with completed := true, completed_at := some ts1 }
        ∈ (toggleTodoRunLegacy 1 false ts1 [pTodo]).inFlight) ∧
    (toggleTodoRunDash 1 false ts1 [pTodo]).inFlight = [pTodo] := by
  have h := c2_optimistic_phase 1 false true ts1 [pTodo] pTodo (by simp) rfl
  exact ⟨h.1, h.2.2.2.1⟩

/-- C3: the rollback of the legacy optimistic toggle-completed evaluated at
the failing input — a task completed at `ts0` is toggled at time `ts1` and
the remote call fails; the failure handler leaves `completed_at = ts1`
instead of restoring `ts0`, so the post-failure store differs from the
pre-mutation store. -/
theorem c3_rollback_failing_eval :
    (toggleTodoRunLegacy 1 true ts1 [doneTodo]).onFailure =
      [{ doneTodo with completed_at := some ts1 }] ∧
    (toggleTodoRunLegacy 1 true ts1 [doneTodo]).onFailure ≠
      (toggleTodoRunLegacy 1 true ts1 [doneTodo]).pre := by decide

/-- C4 counterexample: toggling a task that is already completed (at `ts0`)
twice in succession — un-complete then re-complete at time `ts2` — restores
`completed` but leaves `completedAt = ts2`, not the original `ts0`. -/
theorem c4_double_toggle_loses_timestamp :
    toggleTodoApply 1 false ts2 (toggleTodoApply 1 true ts1 [doneTodo]) =
      [{ doneTodo with completed_at := some ts2 }] ∧
    doneTodo.completed = true ∧
    doneTodo.completed_at = some ts0 ∧
    some ts0 ≠ some ts2 := by decide

/-- C4 (amended): two successive toggle-completed clicks (the second passing
the flipped flag, as the UI reads it from the updated record) always restore
the `completed` flag; they restore `completedAt` when the task started
not-completed with `completedAt = null`, while a task that started completed
ends with `completedAt` equal to the second toggle's timestamp. -/
theorem c4_double_toggle (s : List Todo) (tid : Nat) (n1 n2 : Timestamp)
    (t : Todo) (ht : t ∈ s) (hid : t.id = tid) :
    ∃ t', t' ∈ toggleTodoApply tid (!t.completed) n2
              (toggleTodoApply tid t.completed n1 s) ∧
      t'.completed = t.completed ∧
      (t.completed = false → t.completed_at = none →
        t'.completed_at = t.completed_at) ∧
      (t.completed = true → t'.completed_at = some n2) := by
  unfold toggleTodoApply
  refine ⟨_, List.mem_map_of_mem _ (List.mem_map_of_mem _ ht), ?_, ?_, ?_⟩
  · simp [hid]
  · intro hc hca
    simp [hid, hc, hca]
  · intro hc
    simp [hid, hc]

/-- C4 witness: the amended double-toggle theorem at a concrete
not-completed task (both fields restored) inside the store `[pTodo]`. -/
theorem c4_double_toggle_witness :
    ∃ t', t' ∈ toggleTodoApply 1 (!pTodo.completed) ts2
              (toggleTodoApply 1 pTodo.completed ts1 [pTodo]) ∧
      t'.completed = pTodo.completed ∧
      (pTodo.completed = false → pTodo.completed_at = none →
        t'.completed_at = pTodo.completed_at) ∧
      (pTodo.completed = true → t'.completed_at = some ts2) :=
  c4_double_toggle [pTodo] 1 ts1 ts2 pTodo (by simp) rfl

/-- C6 counterexample: with a group selected, the Dashboard archived view
(`filteredTodos` with `showArchived = true`) still contains an archived task
from a different group — the group filter is not applied in the archived
branch. -/
theorem c6_archived_ignores_group :
    archivedOtherGroupTodo ∈
      filteredTodos true (some 1) 0 [archivedOtherGroupTodo] ∧
    archivedOtherGroupTodo.group_id ≠ 1 := by decide

/-- C6 (amended): the Dashboard archived view contains exactly the archived
tasks, ignoring the selected group (and the completed/current-day restriction
does not apply to it); the separate Archive page applies the group filter, so
over its store — which holds only archived tasks — its filtered list is
exactly the archived tasks of the selected group. -/
theorem c6_archived_view (selectedGroup : Option Nat) (g today : Nat)
    (todos : List Todo) :
    (∀ t, t ∈ archivedViewTodos selectedGroup today todos ↔
      t ∈ todos ∧ t.archived = true) ∧
    ((∀ u ∈ todos, u.archived = true) →
      ∀ t, t ∈ archiveFilteredTodos (some g) todos ↔
        t ∈ todos ∧ t.archived = true ∧ t.group_id = g) := by
  constructor
  · intro t
    exact mem_archivedViewTodos_iff
  · intro h t
    simp only [archiveFilteredTodos, List.mem_filter, beq_iff_eq]
    constructor
    · rintro ⟨hm, hg⟩
      exact ⟨hm, h t hm, hg⟩
    · rintro ⟨hm, _, hg⟩
      exact ⟨hm, hg⟩

/-- C6 witness: the amended archived-view theorem at the concrete store
`[archivedOtherGroupTodo]` — membership in the Dashboard archived view under
a foreign group filter, and membership in the Archive page view under the
matching group filter. -/
theorem c6_archived_view_witness :
    archivedOtherGroupTodo ∈ archivedViewTodos (some 1) 0 [archivedOtherGroupTodo] ∧
    archivedOtherGroupTodo ∈ archiveFilteredTodos (some 2) [archivedOtherGroupTodo] := by
  have h := c6_archived_view (some 1) 2 0 [archivedOtherGroupTodo]
  exact ⟨(h.1 archivedOtherGroupTodo).mpr ⟨by simp, rfl⟩,
    ((h.2 (by decide)) archivedOtherGroupTodo).mpr ⟨by simp, rfl, rfl⟩⟩

/-- C8: for any duplicate-free store and fixed group filter, the Active,
Completed-today and Archived views are pairwise disjoint, none contains a
task twice, and every non-archived task with `completed = false` that passes
the group filter appears in the Active view and in no other view. -/
theorem c8_view_partition (selectedGroup : Option Nat) (today : Nat)
    (todos : List Todo) (h : todos.Nodup) :
    (activeTodos selectedGroup today todos).Nodup ∧
    (completedTodos selectedGroup today todos).Nodup ∧
    (archivedViewTodos selectedGroup today todos).Nodup ∧
    (∀ t, ¬(t ∈ activeTodos selectedGroup today todos ∧
            t ∈ completedTodos selectedGroup today todos)) ∧
    (∀ t, ¬(t ∈ activeTodos selectedGroup today todos ∧
            t ∈ archivedViewTodos selectedGroup today todos)) ∧
    (∀ t, ¬(t ∈ completedTodos selectedGroup today todos ∧
            t ∈ archivedViewTodos selectedGroup today todos)) ∧
    (∀ t ∈ todos, t.archived = false → t.completed = false →
      isInSelectedGroup selectedGroup t = true →
        t ∈ activeTodos selectedGroup today todos ∧
        t ∉ completedTodos selectedGroup today todos ∧
        t ∉ archivedViewTodos selectedGroup today todos) := by
  refine ⟨(h.filter _).filter _, (h.filter _).filter _, h.filter _, ?_, ?_, ?_, ?_⟩
  · rintro t ⟨h1, h2⟩
    rw [mem_activeTodos_iff] at h1
    rw [mem_completedTodos_iff] at h2
    exact absurd h2.2.2.2.1 (by simp [h1.2.2.2])
  · rintro t ⟨h1, h2⟩
    rw [mem_activeTodos_iff] at h1
    rw [mem_archivedViewTodos_iff] at h2
    exact absurd h2.2 (by simp [h1.2.2.1])
  · rintro t ⟨h1, h2⟩
    rw [mem_completedTodos_iff] at h1
    rw [mem_archivedViewTodos_iff] at h2
    exact absurd h2.2 (by simp [h1.2.2.1])
  · intro t hm ha hc hg
    refine ⟨mem_activeTodos_iff.mpr ⟨hm, hg, ha, hc⟩, ?_, ?_⟩
    · intro hmem
      exact absurd (mem_completedTodos_iff.mp hmem).2.2.2.1 (by simp [hc])
    · intro hmem
      exact absurd (mem_archivedViewTodos_iff.mp hmem).2 (by simp [ha])

/-- C8 witness: the view-partition theorem at the concrete duplicate-free
store `[pTodo]` under group filter 1. -/
theorem c8_view_partition_witness :
    pTodo ∈ activeTodos (some 1) 0 [pTodo] ∧
    pTodo ∉ completedTodos (some 1) 0 [pTodo] ∧
    (activeTodos (some 1) 0 [pTodo]).Nodup := by
  have h := c8_view_partition (some 1) 0 [pTodo] (by decide)
  have hp := h.2.2.2.2.2.2 pTodo (by simp) rfl rfl (by decide)
  exact ⟨hp.1, hp.2.1, h.1⟩

/-- C9 counterexample: starting from the sorted store `[pTodo]` (a priority
task), an inbound insert push event carrying the non-priority record `qTodo`
is prepended, so the resulting Active view lists a `priority = false` task
before a `priority = true` task and is not sorted. -/
theorem c9_unsorted_after_insert :
    ¬ sortedView (activeTodos none 0 (applyInsert qTodo [pTodo])) := by decide

/-- C9 (amended): the Active view preserves the underlying store order, so
whenever the store list is sorted by priority-first-then-createdAt-descending
(as the initial remote fetch orders it), the Active view is sorted the same
way; local creation and inbound insert events prepend unconditionally and
need not preserve this order. -/
theorem c9_active_sorted (selectedGroup : Option Nat) (today : Nat)
    (todos : List Todo) (h : List.Pairwise todoOrder todos) :
    sortedView (activeTodos selectedGroup today todos) := by
  unfold sortedView activeTodos filteredTodos
  exact List.Pairwise.sublist
    ((List.filter_sublist _).trans (List.filter_sublist _)) h

/-- C9 witness: the sorted store `[pTodo, qTodo]` (priority task first)
yields a sorted Active view. -/
theorem c9_active_sorted_witness :
    sortedView (activeTodos none 0 [pTodo, qTodo]) :=
  c9_active_sorted none 0 [pTodo, qTodo] (by decide)
